import Mathlib

/-!
Shallow embedding of the authentication + caching core of the `test_task`
FastAPI service (backend/), together with proofs about its endpoint behavior.

Conventions of the embedding:
* A Python `str` is modelled as `List Char`; `len(s)` is `charLen` and
  `len(s.encode('utf-8'))` is `utf8Len` (per-character UTF-8 byte widths,
  via Lean's `Char.utf8Size`).
* The SQLAlchemy tables are modelled as Lean lists of records; `query.filter(...).first()`
  is `List.find?`, `query.all()` is the whole list, `db.add` + `db.commit` +
  `db.refresh` is appending a record carrying a fresh id from an explicit
  `next_id` counter.
* `datetime.utcnow()` is an explicit `now : Nat` parameter (seconds since epoch);
  `timedelta(minutes=20)` is `20 * 60` seconds.
* A JOSE JWT is modelled as its decoded payload together with the key it was
  signed with; `jwt.decode(tok, key, ...)` succeeds exactly when the keys agree
  and the token is not expired, mirroring signature verification plus the
  `exp` check (jose raises `ExpiredSignatureError` when `exp` is in the past).
* bcrypt (`pwd_context.hash` / `pwd_context.verify`) is an external library;
  it is modelled by abstract function parameters `hashFn` / `verifyFn`.
* Redis is modelled as an association list from string keys to cached values
  with their TTL argument; `json.dumps`/`json.loads` on the cached post list
  are modelled as the identity on the structured value
  (a list of id/name pairs, from the comprehension in `get_posts`).
* An `HTTPException(status_code=..., detail=...)` is an `HTTPError` value and
  a handler is a function into `Except HTTPError _`, returning the updated
  store state alongside so that "store unchanged" is statable.
-/

deriving instance DecidableEq for Except

namespace TestTask

/-- A Python string, as its list of characters. -/
abbrev Str := List Char

/-- Number of characters of a string: Python `len(s)` (what pydantic
`max_length` constrains). -/
def charLen (s : Str) : Nat := s.length

/-- Number of UTF-8 bytes of a string: Python `len(s.encode('utf-8'))`. -/
def utf8Len (s : Str) : Nat := (s.map Char.utf8Size).sum

/-- `MAX_SIZE = 1_048_576` from `backend/utils/utils.py`. -/
def MAX_SIZE : Nat := 1048576

/-- The `max_length=1_048_576` constraint of `PostCreateSchema.text`
(`backend/schemas/post_schemas.py`); pydantic counts characters. -/
def schemaMaxLength : Nat := 1048576

/-- The declared length of the `text` column, `Column(String(255))`, in
`PostModel` (`backend/models/post_model.py`). -/
def postTextColumnLength : Nat := 255

/-- A row of the `posts` table (`PostModel`). -/
structure Post where
  id : Nat
  text : Str
  user_id : Nat
deriving DecidableEq, BEq, Repr

/-- A row of the `users` table (`UserModel`). -/
structure User where
  id : Nat
  email : String
  password_hash : String
deriving DecidableEq, BEq, Repr

/-- The dict returned by `get_current_user`: the authenticated caller's
email and id. -/
structure UserInfo where
  email : String
  id : Nat
deriving DecidableEq, Repr

/-- An `HTTPException`: status code and detail message. -/
structure HTTPError where
  status : Nat
  detail : String
deriving DecidableEq, Repr

/-- The decoded claim set of a JWT.  `sub` and `id` are optional because
`get_current_user` probes them with `payload.get(...)`. -/
structure TokenPayload where
  sub : Option String
  id : Option Nat
  exp : Nat
deriving DecidableEq, Repr

/-- A signed token: its payload plus the signing key (a token round-trips
through `jwt.decode` with key `k` iff it was encoded with `k`). -/
structure JWT where
  payload : TokenPayload
  key : String
deriving DecidableEq, Repr

/-- The two JOSE decode failures relevant here; both are subclasses of
`JWTError` in jose and are caught by the single handler in
`get_current_user`. -/
inductive JoseFailure where
  | invalidSignature
  | expiredSignature
deriving DecidableEq, Repr

/-- Model of `jose.jwt.decode(token, key, algorithms=[...])`: signature
verification (key agreement) first, then the `exp` claim check
(expired when `exp` is strictly in the past). -/
def jwtDecode (token : JWT) (key : String) (now : Nat) : Except JoseFailure TokenPayload :=
  if token.key ≠ key then .error .invalidSignature
  else if token.payload.exp < now then .error .expiredSignature
  else .ok token.payload

/-- Model of `create_access_token(email, id, expires_delta)` from
`backend/utils/user_utils.py`: payload is sub=email, id=id,
exp=now+delta (falling back to a configured default when
`expires_delta` is `None`), signed with the process-wide secret. -/
def create_access_token (email : String) (id : Nat) (expires_delta : Option Nat)
    (defaultExpire : Nat) (now : Nat) (secret : String) : JWT :=
  { payload := { sub := some email, id := some id, exp := now + expires_delta.getD defaultExpire }
    key := secret }

/-- Model of `get_current_user(token)` from `backend/utils/user_utils.py`:
decode with the process-wide secret; any `JWTError` (bad signature,
malformed token, or expiration) is caught by the single handler raising
401 with detail 'Token expired'; a decoded payload missing `sub` or `id`
raises 401 'Could not validate user' (that `HTTPException` is not a
`JWTError`, so it propagates unchanged). -/
def get_current_user (token : JWT) (secret : String) (now : Nat) :
    Except HTTPError UserInfo :=
  match jwtDecode token secret now with
  | .error _ => .error { status := 401, detail := "Token expired" }
  | .ok payload =>
    match payload.sub, payload.id with
    | some email, some id => .ok { email := email, id := id }
    | some _, none => .error { status := 401, detail := "Could not validate user" }
    | none, _ => .error { status := 401, detail := "Could not validate user" }

/-- Model of `authenticate_user(email, password, db)`: look the email up
(`first()` on the filtered query), fail when absent or when
`pwd_context.verify` rejects; the Python `False` result is `none`. -/
def authenticate_user (verifyFn : String → String → Bool) (email password : String)
    (db : List User) : Option User :=
  match db.find? (fun u => u.email == email) with
  | none => none
  | some user => if verifyFn password user.password_hash then some user else none

/-- Model of the `/register` handler (`backend/endpoints/users_endpoints.py`):
conflict when the email already exists (400 'User already exists'),
otherwise insert the user with the hashed password and issue a token with
`timedelta(minutes=20)`.  Returns the response together with the updated
users table and id counter. -/
def register_user (hashFn : String → String) (email password : String)
    (db : List User) (next_id : Nat) (now : Nat) (secret : String) :
    Except HTTPError JWT × List User × Nat :=
  match db.find? (fun u => u.email == email) with
  | some _ => (.error { status := 400, detail := "User already exists" }, db, next_id)
  | none =>
    let user : User := { id := next_id, email := email, password_hash := hashFn password }
    let token := create_access_token user.email user.id (some (20 * 60)) (20 * 60) now secret
    (.ok token, db ++ [user], next_id + 1)

/-- Model of the `/login` handler: authenticate, fail with 404 'User not found'
when authentication fails, otherwise issue a token with
`timedelta(minutes=20)`. -/
def login_user (verifyFn : String → String → Bool) (email password : String)
    (db : List User) (now : Nat) (secret : String) : Except HTTPError JWT :=
  match authenticate_user verifyFn email password db with
  | none => .error { status := 404, detail := "User not found" }
  | some user => .ok (create_access_token user.email user.id (some (20 * 60)) (20 * 60) now secret)

/-- A value stored in Redis: the structured form of the JSON text, plus the
`ex=` TTL it was written with. -/
structure CacheEntry where
  value : List (Nat × Str)
  ttl : Nat
deriving DecidableEq, Repr

/-- The Redis store: an association list from keys to entries. -/
abbrev Redis := List (String × CacheEntry)

/-- Model of `redis_client.get(key)` (decoded responses). -/
def redisGet (r : Redis) (key : String) : Option (List (Nat × Str)) :=
  match r.find? (fun kv => kv.fst == key) with
  | some kv => some kv.snd.value
  | none => none

/-- Model of `redis_client.set(key, value, ex=ttl)`. -/
def redisSet (r : Redis) (key : String) (value : List (Nat × Str)) (ttl : Nat) : Redis :=
  (key, { value := value, ttl := ttl }) :: r.filter (fun kv => kv.fst != key)

/-- The cache key computed by `get_posts`: the f-string `post_user{user_id}`
(braces elided here), i.e. the literal `post_user` followed by the decimal
user id. -/
def cacheKey (user_id : Nat) : String := "post_user" ++ toString user_id

/-- The list comprehension in `get_posts` serializing posts for the cache:
id and name (= text) of each post. -/
def serializePosts (posts : List Post) : List (Nat × Str) :=
  posts.map (fun c => (c.id, c.text))

/-- Model of the `/get-posts` handler (`backend/endpoints/posts_endpoints.py`):
401 when unauthenticated; read the cache under `post_user{id}`; on a hit the
decoded value is bound and then overwritten, on a miss ALL posts are
serialized and written with `ex=5`; in both cases the response is the fresh
per-owner query `db.query(PostModel).filter(PostModel.user_id == id).all()`.
Returns the response together with the resulting Redis state. -/
def get_posts (db : List Post) (user : Option UserInfo) (r : Redis) :
    Except HTTPError (List Post) × Redis :=
  match user with
  | none => (.error { status := 401, detail := "Unauthorized" }, r)
  | some u =>
    let key := cacheKey u.id
    let r2 : Redis :=
      match redisGet r key with
      | some _cached => r
      | none => redisSet r key (serializePosts db) 5
    (.ok (db.filter (fun p => p.user_id == u.id)), r2)

/-- Model of the `/add-post` handler body: 401 when unauthenticated, 413 when
the UTF-8 byte length of the text exceeds `MAX_SIZE`, otherwise insert the
post for the caller and answer with the fresh post id. -/
def add_post (text : Str) (db : List Post) (user : Option UserInfo) (next_id : Nat) :
    Except HTTPError Nat × List Post × Nat :=
  match user with
  | none => (.error { status := 401, detail := "Unauthorized" }, db, next_id)
  | some u =>
    if utf8Len text > MAX_SIZE then
      (.error { status := 413, detail := "Text exceeds 1MB size limit." }, db, next_id)
    else
      let post : Post := { id := next_id, text := text, user_id := u.id }
      (.ok post.id, db ++ [post], next_id + 1)

/-- The pydantic validation of `PostCreateSchema`: `max_length=1_048_576`
counts characters. -/
def postCreateSchemaValid (text : Str) : Bool := charLen text ≤ schemaMaxLength

/-- The `/add-post` request pipeline: FastAPI validates the body against
`PostCreateSchema` first (a failure is a 422 Unprocessable Entity response,
never reaching the handler), then runs the handler. -/
def addPostRequest (text : Str) (db : List Post) (user : Option UserInfo) (next_id : Nat) :
    Except HTTPError Nat × List Post × Nat :=
  if postCreateSchemaValid text then add_post text db user next_id
  else (.error { status := 422, detail := "Unprocessable Entity" }, db, next_id)

/-- Model of the `/delete-post/{post_id}` handler (braces elided): 401 when
unauthenticated; `first()` on the query filtered by BOTH the post id and the
caller's user id; 404 'Post not found' when that is empty (post absent or
owned by someone else alike), otherwise delete that row. -/
def delete_post (post_id : Nat) (db : List Post) (user : Option UserInfo) :
    Except HTTPError Unit × List Post :=
  match user with
  | none => (.error { status := 401, detail := "Unauthorized" }, db)
  | some u =>
    match db.find? (fun p => p.id == post_id && p.user_id == u.id) with
    | none => (.error { status := 404, detail := "Post not found" }, db)
    | some post => (.ok (), db.erase post)

/-- The mutable state visible to the post endpoints: the posts table, the
Redis cache, and the id counter. -/
structure AppState where
  db : List Post
  cache : Redis
  next_id : Nat
deriving Repr

/-- The `/add-post` request as a transition on the whole app state; the
handler takes no Redis client, so the cache passes through untouched. -/
def appAddPost (s : AppState) (text : Str) (user : Option UserInfo) :
    Except HTTPError Nat × AppState :=
  let r := addPostRequest text s.db user s.next_id
  (r.1, { db := r.2.1, cache := s.cache, next_id := r.2.2 })

/-- The `/delete-post` request as a transition on the whole app state; the
handler takes no Redis client, so the cache passes through untouched. -/
def appDeletePost (s : AppState) (post_id : Nat) (user : Option UserInfo) :
    Except HTTPError Unit × AppState :=
  let r := delete_post post_id s.db user
  (r.1, { db := r.2, cache := s.cache, next_id := s.next_id })

/-- The `/get-posts` request as a transition on the whole app state. -/
def appGetPosts (s : AppState) (user : Option UserInfo) :
    Except HTTPError (List Post) × AppState :=
  let r := get_posts s.db user s.cache
  (r.1, { db := s.db, cache := r.2, next_id := s.next_id })

/-! ### Helper lemmas -/

/-- Every character occupies at least one UTF-8 byte, so the character count
of a string is at most its UTF-8 byte count. -/
theorem charLen_le_utf8Len (s : Str) : charLen s ≤ utf8Len s := by
  induction s with
  | nil => simp [charLen, utf8Len]
  | cons c cs ih =>
    have hc := Char.utf8Size_pos c
    simp only [charLen, utf8Len, List.map_cons, List.sum_cons, List.length_cons] at *
    omega

/-- UTF-8 byte count of a repeated character. -/
theorem utf8Len_replicate (n : Nat) (c : Char) :
    utf8Len (List.replicate n c) = n * c.utf8Size := by
  simp [utf8Len, List.map_replicate, List.sum_replicate, smul_eq_mul]

/-- UTF-8 byte count of a cons. -/
theorem utf8Len_cons (c : Char) (s : Str) : utf8Len (c :: s) = c.utf8Size + utf8Len s := by
  simp [utf8Len]

/-! ### Claims -/

/-- C1: for every authenticated call to get-posts, the response is exactly the
posts whose owner id is the caller's id, independently of the cache state
(hit or miss alike): the cached value is decoded but discarded, and the
authoritative per-owner query determines the response. -/
theorem get_posts_response_is_owner_query (db : List Post) (u : UserInfo) (r r' : Redis) :
    (get_posts db (some u) r).1 = .ok (db.filter (fun p => p.user_id == u.id)) ∧
    (get_posts db (some u) r).1 = (get_posts db (some u) r').1 := by
  constructor
  · show (get_posts db (some u) r).1 = _
    unfold get_posts
    rcases redisGet r (cacheKey u.id) with _ | v <;> rfl
  · unfold get_posts
    rcases redisGet r (cacheKey u.id) with _ | v <;>
      rcases redisGet r' (cacheKey u.id) with _ | w <;> rfl

/-- C8: the cache entry written by get-posts lives under the key `post_user`
followed by the caller's id, holds the serialized snapshot of ALL posts
(not scoped to the caller) with TTL 5 seconds, is written only on a miss
(a hit leaves the Redis state untouched), and neither add-post nor
delete-post ever touches the cache. -/
theorem get_posts_cache_entry (db : List Post) (u : UserInfo) (rm rh : Redis)
    (v : List (Nat × Str)) (s : AppState) (text : Str) (user2 : Option UserInfo) (pid : Nat)
    (hmiss : redisGet rm (cacheKey u.id) = none)
    (hhit : redisGet rh (cacheKey u.id) = some v) :
    (get_posts db (some u) rm).2
      = ("post_user" ++ toString u.id, { value := serializePosts db, ttl := 5 })
          :: rm.filter (fun kv => kv.fst != "post_user" ++ toString u.id) ∧
    (get_posts db (some u) rh).2 = rh ∧
    (appAddPost s text user2).2.cache = s.cache ∧
    (appDeletePost s pid user2).2.cache = s.cache := by
  have hmiss' : redisGet rm ("post_user" ++ toString u.id) = none := hmiss
  have hhit' : redisGet rh ("post_user" ++ toString u.id) = some v := hhit
  refine ⟨?_, ?_, rfl, rfl⟩
  · simp [get_posts, cacheKey, hmiss', redisSet]
  · simp [get_posts, cacheKey, hhit']

/-- Concrete run of `get_posts_cache_entry`: a two-user post table, an empty
cache (miss) and a pre-filled cache (hit). -/
theorem get_posts_cache_entry_witness :
    redisGet [] (cacheKey 1) = none ∧
    redisGet [("post_user1", { value := [(9, ['z'])], ttl := 5 })] (cacheKey 1)
      = some [(9, ['z'])] ∧
    ((get_posts [{ id := 1, text := ['h'], user_id := 1 }, { id := 2, text := ['w'], user_id := 2 }]
        (some { email := "a@x.com", id := 1 }) []).2
      = ("post_user" ++ toString (1 : Nat),
          { value := serializePosts [{ id := 1, text := ['h'], user_id := 1 },
                                     { id := 2, text := ['w'], user_id := 2 }], ttl := 5 })
          :: List.filter (fun kv => kv.fst != "post_user" ++ toString (1 : Nat)) [] ∧
    (get_posts [{ id := 1, text := ['h'], user_id := 1 }, { id := 2, text := ['w'], user_id := 2 }]
        (some { email := "a@x.com", id := 1 })
        [("post_user1", { value := [(9, ['z'])], ttl := 5 })]).2
      = [("post_user1", { value := [(9, ['z'])], ttl := 5 })] ∧
    (appAddPost { db := [], cache := [("post_user1", { value := [(9, ['z'])], ttl := 5 })], next_id := 3 }
        ['t'] (some { email := "a@x.com", id := 1 })).2.cache
      = ({ db := [], cache := [("post_user1", { value := [(9, ['z'])], ttl := 5 })], next_id := 3 } : AppState).cache ∧
    (appDeletePost { db := [], cache := [("post_user1", { value := [(9, ['z'])], ttl := 5 })], next_id := 3 }
        1 (some { email := "a@x.com", id := 1 })).2.cache
      = ({ db := [], cache := [("post_user1", { value := [(9, ['z'])], ttl := 5 })], next_id := 3 } : AppState).cache) :=
  ⟨rfl, rfl,
    get_posts_cache_entry
      [{ id := 1, text := ['h'], user_id := 1 }, { id := 2, text := ['w'], user_id := 2 }]
      { email := "a@x.com", id := 1 } [] [("post_user1", { value := [(9, ['z'])], ttl := 5 })]
      [(9, ['z'])]
      { db := [], cache := [("post_user1", { value := [(9, ['z'])], ttl := 5 })], next_id := 3 }
      ['t'] (some { email := "a@x.com", id := 1 }) 1 rfl rfl⟩

/-- C5: delete-post succeeds exactly when a post with the given id exists AND
is owned by the caller; every failing call (absent post and foreign post
alike) yields the same 404 'Post not found' and leaves the store unchanged. -/
theorem delete_post_ownership (db : List Post) (u : UserInfo) (pid : Nat) :
    ((delete_post pid db (some u)).1 = .ok () ↔ ∃ p, p ∈ db ∧ p.id = pid ∧ p.user_id = u.id) ∧
    ((delete_post pid db (some u)).1 ≠ .ok () →
      delete_post pid db (some u) = (.error { status := 404, detail := "Post not found" }, db)) := by
  rcases hf : db.find? (fun p => p.id == pid && p.user_id == u.id) with _ | post
  · constructor
    · simp only [delete_post, hf]
      constructor
      · intro h
        simp at h
      · rintro ⟨p, hp, h1, h2⟩
        have hn := List.find?_eq_none.mp hf p hp
        simp [h1, h2] at hn
    · intro _
      simp [delete_post, hf]
  · have hpred := List.find?_some hf
    have hmem := List.mem_of_find?_eq_some hf
    simp only [Bool.and_eq_true, beq_iff_eq] at hpred
    constructor
    · constructor
      · intro _
        exact ⟨post, hmem, hpred.1, hpred.2⟩
      · intro _
        simp [delete_post, hf]
    · intro h
      simp [delete_post, hf] at h

/-- Concrete run of `delete_post_ownership`: the store holds post 5 owned by
user 2; caller 1 asks to delete post 5 and gets the 404 with the store
unchanged, exactly as if the post did not exist. -/
theorem delete_post_ownership_witness :
    delete_post 5 [{ id := 5, text := ['h'], user_id := 2 }] (some { email := "a@x.com", id := 1 })
      = (.error { status := 404, detail := "Post not found" },
         [{ id := 5, text := ['h'], user_id := 2 }]) :=
  (delete_post_ownership [{ id := 5, text := ['h'], user_id := 2 }]
      { email := "a@x.com", id := 1 } 5).2 (by decide)

/-- C3 counterexample: the all-ASCII text of 1,048,577 bytes is rejected by the
pydantic `max_length` validation of `PostCreateSchema` (1,048,577 characters),
so the request fails with 422 Unprocessable Entity, not with the handler's
413 PayloadTooLarge. -/
theorem addPost_1048577_bytes_not_413 :
    utf8Len (List.replicate 1048577 'a') = 1048577 ∧
    (addPostRequest (List.replicate 1048577 'a') []
        (some { email := "a@x.com", id := 1 }) 1).1
      = .error { status := 422, detail := "Unprocessable Entity" } ∧
    ({ status := 422, detail := "Unprocessable Entity" } : HTTPError)
      ≠ { status := 413, detail := "Text exceeds 1MB size limit." } := by
  refine ⟨?_, ?_, by decide⟩
  · rw [utf8Len_replicate]
    norm_num [show Char.utf8Size 'a' = 1 from rfl]
  · have hcl : charLen (List.replicate 1048577 'a') = 1048577 := by
      show (List.replicate 1048577 'a').length = 1048577
      rw [List.length_replicate]
    have hval : postCreateSchemaValid (List.replicate 1048577 'a') = false := by
      unfold postCreateSchemaValid
      rw [hcl]
      rfl
    unfold addPostRequest
    rw [hval]
    rfl

/-- C3 (amended): with an authenticated caller, add-post succeeds for a text of
exactly 1,048,576 UTF-8 bytes; a text of 1,048,577 bytes fails with 413 when
its character count still passes the schema bound of 1,048,576, and with the
schema's 422 when the character count exceeds the bound (as any all-ASCII such
text does); a 2,000,000-byte text fails with 413 exactly in the first
situation. -/
theorem addPost_size_limits (db : List Post) (u : UserInfo) (next_id : Nat)
    (t1 t2 t3 t4 : Str)
    (h1 : utf8Len t1 = 1048576)
    (h2 : utf8Len t2 = 1048577) (h2c : charLen t2 ≤ 1048576)
    (_h3 : utf8Len t3 = 1048577) (h3c : 1048576 < charLen t3)
    (h4 : utf8Len t4 = 2000000) (h4c : charLen t4 ≤ 1048576) :
    (addPostRequest t1 db (some u) next_id).1 = .ok next_id ∧
    (addPostRequest t2 db (some u) next_id).1
      = .error { status := 413, detail := "Text exceeds 1MB size limit." } ∧
    (addPostRequest t3 db (some u) next_id).1
      = .error { status := 422, detail := "Unprocessable Entity" } ∧
    (addPostRequest t4 db (some u) next_id).1
      = .error { status := 413, detail := "Text exceeds 1MB size limit." } := by
  have hc1 : charLen t1 ≤ 1048576 := h1 ▸ charLen_le_utf8Len t1
  refine ⟨?_, ?_, ?_, ?_⟩
  · simp [addPostRequest, postCreateSchemaValid, schemaMaxLength, hc1, add_post, MAX_SIZE, h1]
  · simp [addPostRequest, postCreateSchemaValid, schemaMaxLength, h2c, add_post, MAX_SIZE, h2]
  · have hval : postCreateSchemaValid t3 = false := by
      unfold postCreateSchemaValid schemaMaxLength
      simp only [decide_eq_false_iff_not, not_le]
      exact h3c
    unfold addPostRequest
    rw [hval]
    rfl
  · simp [addPostRequest, postCreateSchemaValid, schemaMaxLength, h4c, add_post, MAX_SIZE, h4]

/-- Concrete run of `addPost_size_limits`: an all-ASCII 1 MiB text, a
1,048,577-byte text with one two-byte character, an all-ASCII 1,048,577-byte
text, and a 2,000,000-byte text of two-byte characters. -/
theorem addPost_size_limits_witness :
    utf8Len (List.replicate 1048576 'a') = 1048576 ∧
    utf8Len ('é' :: List.replicate 1048575 'a') = 1048577 ∧
    charLen ('é' :: List.replicate 1048575 'a') ≤ 1048576 ∧
    utf8Len (List.replicate 1048577 'a') = 1048577 ∧
    1048576 < charLen (List.replicate 1048577 'a') ∧
    utf8Len (List.replicate 1000000 'é') = 2000000 ∧
    charLen (List.replicate 1000000 'é') ≤ 1048576 ∧
    ((addPostRequest (List.replicate 1048576 'a') [] (some { email := "a@x.com", id := 1 }) 1).1
        = .ok 1 ∧
     (addPostRequest ('é' :: List.replicate 1048575 'a') [] (some { email := "a@x.com", id := 1 }) 1).1
        = .error { status := 413, detail := "Text exceeds 1MB size limit." } ∧
     (addPostRequest (List.replicate 1048577 'a') [] (some { email := "a@x.com", id := 1 }) 1).1
        = .error { status := 422, detail := "Unprocessable Entity" } ∧
     (addPostRequest (List.replicate 1000000 'é') [] (some { email := "a@x.com", id := 1 }) 1).1
        = .error { status := 413, detail := "Text exceeds 1MB size limit." }) := by
  have p1 : utf8Len (List.replicate 1048576 'a') = 1048576 := by
    rw [utf8Len_replicate]
    norm_num [show Char.utf8Size 'a' = 1 from rfl]
  have p2 : utf8Len ('é' :: List.replicate 1048575 'a') = 1048577 := by
    rw [utf8Len_cons, utf8Len_replicate]
    norm_num [show Char.utf8Size 'a' = 1 from rfl, show Char.utf8Size 'é' = 2 from rfl]
  have p2c : charLen ('é' :: List.replicate 1048575 'a') ≤ 1048576 := by
    show ('é' :: List.replicate 1048575 'a').length ≤ 1048576
    rw [List.length_cons, List.length_replicate]
  have p3 : utf8Len (List.replicate 1048577 'a') = 1048577 := by
    rw [utf8Len_replicate]
    norm_num [show Char.utf8Size 'a' = 1 from rfl]
  have p3c : 1048576 < charLen (List.replicate 1048577 'a') := by
    show 1048576 < (List.replicate 1048577 'a').length
    rw [List.length_replicate]
    norm_num
  have p4 : utf8Len (List.replicate 1000000 'é') = 2000000 := by
    rw [utf8Len_replicate]
    norm_num [show Char.utf8Size 'é' = 2 from rfl]
  have p4c : charLen (List.replicate 1000000 'é') ≤ 1048576 := by
    show (List.replicate 1000000 'é').length ≤ 1048576
    rw [List.length_replicate]
    norm_num
  exact ⟨p1, p2, p2c, p3, p3c, p4, p4c,
    addPost_size_limits [] { email := "a@x.com", id := 1 } 1 _ _ _ _ p1 p2 p2c p3 p3c p4 p4c⟩

/-- C2: a token issued by `create_access_token` validates with the same
process-wide key at any time strictly before its expiration and yields back
exactly the encoded email and user id; at any time strictly after the
expiration it fails with the expired-token error (401 'Token expired'). -/
theorem token_roundtrip_and_expiry (email : String) (id ttl now t1 t2 : Nat)
    (secret : String) (h1 : t1 < now + ttl) (h2 : now + ttl < t2) :
    get_current_user (create_access_token email id (some ttl) (20 * 60) now secret) secret t1
      = .ok { email := email, id := id } ∧
    get_current_user (create_access_token email id (some ttl) (20 * 60) now secret) secret t2
      = .error { status := 401, detail := "Token expired" } := by
  have hexp1 : ¬ (now + ttl < t1) := by omega
  constructor
  · simp [get_current_user, jwtDecode, create_access_token, hexp1]
  · simp [get_current_user, jwtDecode, create_access_token, h2]

/-- Concrete run of `token_roundtrip_and_expiry`: a token with a 20-minute
lifetime issued at time 0, validated at times 100 and 2000. -/
theorem token_roundtrip_and_expiry_witness :
    100 < 0 + 1200 ∧ 0 + 1200 < 2000 ∧
    (get_current_user (create_access_token "a@x.com" 1 (some 1200) (20 * 60) 0 "secret") "secret" 100
      = .ok { email := "a@x.com", id := 1 } ∧
     get_current_user (create_access_token "a@x.com" 1 (some 1200) (20 * 60) 0 "secret") "secret" 2000
      = .error { status := 401, detail := "Token expired" }) :=
  ⟨by norm_num, by norm_num,
    token_roundtrip_and_expiry "a@x.com" 1 1200 0 100 2000 "secret" (by norm_num) (by norm_num)⟩

/-- C4 counterexample: a token signed with a different key and an expired
token fail with the SAME error value, 401 with detail 'Token expired' (the
single `except JWTError` handler in `get_current_user` covers signature
failures and expiration alike), so the code has no distinct InvalidToken
failure for wrong-key tokens. -/
theorem wrong_key_error_equals_expired_error :
    get_current_user
        { payload := { sub := some "a@x.com", id := some 1, exp := 1000 }, key := "otherkey" }
        "secret" 0
      = .error { status := 401, detail := "Token expired" } ∧
    get_current_user
        { payload := { sub := some "a@x.com", id := some 1, exp := 1000 }, key := "secret" }
        "secret" 2000
      = .error { status := 401, detail := "Token expired" } := by
  constructor <;> rfl

/-- C4 (amended): validation failures split into exactly two observable
errors: every JOSE decode failure — wrong signature (whatever the `exp`) and
expiration alike — yields the single 401 'Token expired' error, and only a
decodable payload missing `sub` or `id` yields the distinct 401
'Could not validate user'; in particular a wrong-key token fails with the
same error as an expired one, not with a distinct InvalidToken error. -/
theorem get_current_user_error_taxonomy (t1 t2 t3 : JWT) (secret : String)
    (now1 now2 now3 : Nat)
    (h1 : t1.key ≠ secret)
    (h2k : t2.key = secret) (h2e : t2.payload.exp < now2)
    (h3k : t3.key = secret) (h3e : ¬ t3.payload.exp < now3)
    (h3s : t3.payload.sub = none ∨ t3.payload.id = none) :
    get_current_user t1 secret now1 = .error { status := 401, detail := "Token expired" } ∧
    get_current_user t2 secret now2 = .error { status := 401, detail := "Token expired" } ∧
    get_current_user t3 secret now3
      = .error { status := 401, detail := "Could not validate user" } := by
  refine ⟨?_, ?_, ?_⟩
  · simp [get_current_user, jwtDecode, h1]
  · simp [get_current_user, jwtDecode, h2k, h2e]
  · rcases h3s with h | h
    · simp [get_current_user, jwtDecode, h3k, h3e, h]
    · rcases hs : t3.payload.sub with _ | e <;>
        simp [get_current_user, jwtDecode, h3k, h3e, h, hs]

/-- Concrete run of `get_current_user_error_taxonomy`: a wrong-key token, an
expired token, and a valid-signature token missing its `id` claim. -/
theorem get_current_user_error_taxonomy_witness :
    ({ payload := { sub := some "a@x.com", id := some 1, exp := 1000 },
       key := "otherkey" } : JWT).key ≠ "secret" ∧
    (get_current_user
        { payload := { sub := some "a@x.com", id := some 1, exp := 1000 }, key := "otherkey" }
        "secret" 500
      = .error { status := 401, detail := "Token expired" } ∧
     get_current_user
        { payload := { sub := some "a@x.com", id := some 1, exp := 1000 }, key := "secret" }
        "secret" 5000
      = .error { status := 401, detail := "Token expired" } ∧
     get_current_user
        { payload := { sub := some "a@x.com", id := none, exp := 1000 }, key := "secret" }
        "secret" 500
      = .error { status := 401, detail := "Could not validate user" }) :=
  ⟨by decide,
    get_current_user_error_taxonomy
      { payload := { sub := some "a@x.com", id := some 1, exp := 1000 }, key := "otherkey" }
      { payload := { sub := some "a@x.com", id := some 1, exp := 1000 }, key := "secret" }
      { payload := { sub := some "a@x.com", id := none, exp := 1000 }, key := "secret" }
      "secret" 500 5000 500
      (by decide) rfl (by decide) rfl (by decide) (Or.inr rfl)⟩

/-- C9: every token issued by register or login carries exactly the payload
sub = email, id = user id, exp = issuance time + 20 minutes (both handlers
pass `timedelta(minutes=20)`); the expiration is a fixed field of the issued
token, set at creation. -/
theorem issued_token_payload (hashFn : String → String) (verifyFn : String → String → Bool)
    (email password lemail lpassword : String) (db udb : List User)
    (next_id now : Nat) (secret : String) (t1 t2 : JWT) (u : User)
    (hreg : (register_user hashFn email password db next_id now secret).1 = .ok t1)
    (hauth : authenticate_user verifyFn lemail lpassword udb = some u)
    (hlog : login_user verifyFn lemail lpassword udb now secret = .ok t2) :
    t1.payload = { sub := some email, id := some next_id, exp := now + 20 * 60 } ∧
    t2.payload = { sub := some u.email, id := some u.id, exp := now + 20 * 60 } := by
  constructor
  · rcases hf : db.find? (fun v => v.email == email) with _ | w
    · rw [register_user, hf] at hreg
      simp only [Except.ok.injEq] at hreg
      rw [← hreg]
      simp [create_access_token]
    · rw [register_user, hf] at hreg
      simp at hreg
  · rw [login_user, hauth] at hlog
    simp only [Except.ok.injEq] at hlog
    rw [← hlog]
    simp [create_access_token]

/-- Concrete run of `issued_token_payload`: a registration into an empty
store and a login against a one-user store, both at time 0. -/
theorem issued_token_payload_witness :
    ((register_user (fun s => s) "a@x.com" "pw" [] 1 0 "secret").1
      = .ok { payload := { sub := some "a@x.com", id := some 1, exp := 1200 }, key := "secret" } ∧
     authenticate_user (fun _ _ => true) "b@x.com" "pw"
        [{ id := 7, email := "b@x.com", password_hash := "h" }]
      = some { id := 7, email := "b@x.com", password_hash := "h" } ∧
     login_user (fun _ _ => true) "b@x.com" "pw"
        [{ id := 7, email := "b@x.com", password_hash := "h" }] 0 "secret"
      = .ok { payload := { sub := some "b@x.com", id := some 7, exp := 1200 }, key := "secret" }) ∧
    (({ payload := { sub := some "a@x.com", id := some 1, exp := 1200 },
        key := "secret" } : JWT).payload
      = { sub := some "a@x.com", id := some 1, exp := 0 + 20 * 60 } ∧
     ({ payload := { sub := some "b@x.com", id := some 7, exp := 1200 },
        key := "secret" } : JWT).payload
      = { sub := some "b@x.com",
          id := some ({ id := 7, email := "b@x.com", password_hash := "h" } : User).id,
          exp := 0 + 20 * 60 }) :=
  ⟨⟨rfl, rfl, rfl⟩,
    issued_token_payload (fun s => s) (fun _ _ => true) "a@x.com" "pw" "b@x.com" "pw" []
      [{ id := 7, email := "b@x.com", password_hash := "h" }] 1 0 "secret"
      { payload := { sub := some "a@x.com", id := some 1, exp := 1200 }, key := "secret" }
      { payload := { sub := some "b@x.com", id := some 7, exp := 1200 }, key := "secret" }
      { id := 7, email := "b@x.com", password_hash := "h" }
      rfl rfl rfl⟩

/-- When the email is already present (as `first()` on the filtered query
sees it), register answers 400 'User already exists' and leaves the users
table and the id counter untouched. -/
theorem register_user_conflict_of_present (hashFn : String → String) (email password : String)
    (db : List User) (next_id now : Nat) (secret : String)
    (h : (db.find? (fun v => v.email == email)).isSome) :
    register_user hashFn email password db next_id now secret
      = (.error { status := 400, detail := "User already exists" }, db, next_id) := by
  rcases hf : db.find? (fun v => v.email == email) with _ | w
  · rw [hf] at h
    simp at h
  · simp [register_user, hf]

/-- After any register call for an email, the resulting users table contains
a user with that email (either it was already there, or it was just
inserted). -/
theorem register_email_present (hashFn : String → String) (email password : String)
    (db : List User) (next_id now : Nat) (secret : String) :
    (((register_user hashFn email password db next_id now secret).2.1).find?
        (fun v => v.email == email)).isSome := by
  rcases hf : db.find? (fun v => v.email == email) with _ | w
  · simp [register_user, hf, List.find?_append]
  · simp [register_user, hf]

/-- C6: register with an email already present in the credential store fails
with 400 'User already exists' and leaves the store unchanged; consequently,
whatever the initial store, the second of two registrations of the same
email always answers that conflict and does not change the store further. -/
theorem register_email_conflict (hashFn : String → String) (email p1 p2 : String)
    (db db0 : List User) (next_id nid0 now1 now2 : Nat) (secret : String)
    (hex : ∃ u, u ∈ db ∧ u.email = email) :
    register_user hashFn email p1 db next_id now1 secret
      = (.error { status := 400, detail := "User already exists" }, db, next_id) ∧
    ((register_user hashFn email p2
        (register_user hashFn email p1 db0 nid0 now1 secret).2.1
        (register_user hashFn email p1 db0 nid0 now1 secret).2.2 now2 secret).1
      = .error { status := 400, detail := "User already exists" } ∧
     (register_user hashFn email p2
        (register_user hashFn email p1 db0 nid0 now1 secret).2.1
        (register_user hashFn email p1 db0 nid0 now1 secret).2.2 now2 secret).2.1
      = (register_user hashFn email p1 db0 nid0 now1 secret).2.1) := by
  obtain ⟨u0, hu0, he0⟩ := hex
  have hs : (db.find? (fun v => v.email == email)).isSome :=
    List.find?_isSome.mpr ⟨u0, hu0, by simp [he0]⟩
  have h2 := register_user_conflict_of_present hashFn email p2
    (register_user hashFn email p1 db0 nid0 now1 secret).2.1
    (register_user hashFn email p1 db0 nid0 now1 secret).2.2 now2 secret
    (register_email_present hashFn email p1 db0 nid0 now1 secret)
  refine ⟨register_user_conflict_of_present hashFn email p1 db next_id now1 secret hs, ?_, ?_⟩
  · rw [h2]
  · rw [h2]

/-- Concrete run of `register_email_conflict`: the store already holds
`a@x.com`; registering it again conflicts, and a double registration into an
empty store conflicts on the second attempt. -/
theorem register_email_conflict_witness :
    (∃ u, u ∈ ([{ id := 0, email := "a@x.com", password_hash := "h" }] : List User) ∧
      u.email = "a@x.com") ∧
    (register_user (fun s => s) "a@x.com" "pw"
        [{ id := 0, email := "a@x.com", password_hash := "h" }] 1 0 "secret"
      = (.error { status := 400, detail := "User already exists" },
         [{ id := 0, email := "a@x.com", password_hash := "h" }], 1) ∧
     ((register_user (fun s => s) "a@x.com" "pw2"
          (register_user (fun s => s) "a@x.com" "pw" [] 1 0 "secret").2.1
          (register_user (fun s => s) "a@x.com" "pw" [] 1 0 "secret").2.2 5 "secret").1
        = .error { status := 400, detail := "User already exists" } ∧
      (register_user (fun s => s) "a@x.com" "pw2"
          (register_user (fun s => s) "a@x.com" "pw" [] 1 0 "secret").2.1
          (register_user (fun s => s) "a@x.com" "pw" [] 1 0 "secret").2.2 5 "secret").2.1
        = (register_user (fun s => s) "a@x.com" "pw" [] 1 0 "secret").2.1)) :=
  ⟨⟨{ id := 0, email := "a@x.com", password_hash := "h" }, by simp, rfl⟩,
    register_email_conflict (fun s => s) "a@x.com" "pw" "pw2"
      [{ id := 0, email := "a@x.com", password_hash := "h" }] [] 1 1 0 5 "secret"
      ⟨{ id := 0, email := "a@x.com", password_hash := "h" }, by simp, rfl⟩⟩

/-- C7: authenticate_user produces the very same failure value (`none`,
Python `False`) when no user carries the email and when the first user
carrying it fails the password-hash comparison, and login surfaces both as
the identical 404 'User not found' response. -/
theorem authenticate_failure_indistinguishable (verifyFn : String → String → Bool)
    (email password : String) (db1 db2 : List User) (u0 : User) (now : Nat) (secret : String)
    (h1 : ∀ u ∈ db1, u.email ≠ email)
    (h2 : db2.find? (fun v => v.email == email) = some u0)
    (h2v : verifyFn password u0.password_hash = false) :
    authenticate_user verifyFn email password db1 = none ∧
    authenticate_user verifyFn email password db2 = none ∧
    authenticate_user verifyFn email password db1
      = authenticate_user verifyFn email password db2 ∧
    login_user verifyFn email password db1 now secret
      = .error { status := 404, detail := "User not found" } ∧
    login_user verifyFn email password db2 now secret
      = .error { status := 404, detail := "User not found" } := by
  have hf1 : db1.find? (fun v => v.email == email) = none :=
    List.find?_eq_none.mpr (fun u hu => by simp [h1 u hu])
  have a1 : authenticate_user verifyFn email password db1 = none := by
    simp [authenticate_user, hf1]
  have a2 : authenticate_user verifyFn email password db2 = none := by
    simp [authenticate_user, h2, h2v]
  exact ⟨a1, a2, a1.trans a2.symm, by simp [login_user, a1], by simp [login_user, a2]⟩

/-- Concrete run of `authenticate_failure_indistinguishable`: an empty store
versus a store holding `a@x.com` with a rejecting hash comparison. -/
theorem authenticate_failure_indistinguishable_witness :
    (∀ u ∈ ([] : List User), u.email ≠ "a@x.com") ∧
    (([{ id := 1, email := "a@x.com", password_hash := "h" }] : List User).find?
        (fun v => v.email == "a@x.com")
      = some { id := 1, email := "a@x.com", password_hash := "h" }) ∧
    ((fun _ _ => false : String → String → Bool) "pw"
        ({ id := 1, email := "a@x.com", password_hash := "h" } : User).password_hash = false) ∧
    (authenticate_user (fun _ _ => false) "a@x.com" "pw" [] = none ∧
     authenticate_user (fun _ _ => false) "a@x.com" "pw"
        [{ id := 1, email := "a@x.com", password_hash := "h" }] = none ∧
     authenticate_user (fun _ _ => false) "a@x.com" "pw" []
       = authenticate_user (fun _ _ => false) "a@x.com" "pw"
          [{ id := 1, email := "a@x.com", password_hash := "h" }] ∧
     login_user (fun _ _ => false) "a@x.com" "pw" [] 0 "secret"
       = .error { status := 404, detail := "User not found" } ∧
     login_user (fun _ _ => false) "a@x.com" "pw"
        [{ id := 1, email := "a@x.com", password_hash := "h" }] 0 "secret"
       = .error { status := 404, detail := "User not found" }) :=
  ⟨by simp, rfl, rfl,
    authenticate_failure_indistinguishable (fun _ _ => false) "a@x.com" "pw" []
      [{ id := 1, email := "a@x.com", password_hash := "h" }]
      { id := 1, email := "a@x.com", password_hash := "h" } 0 "secret"
      (by simp) rfl rfl⟩

/-- C10: the persisted schema declares the post text column as String(255),
three orders of magnitude below the 1,048,576-byte API size check (the ratio
lies between 10^3 and 10^4), and the API layer itself accepts texts longer
than the declared column length — so only the backing database could enforce
the 255-character bound. -/
theorem post_text_column_vs_api_limit :
    postTextColumnLength = 255 ∧ MAX_SIZE = 1048576 ∧
    1000 * postTextColumnLength ≤ MAX_SIZE ∧ MAX_SIZE < 10000 * postTextColumnLength ∧
    ∃ t : Str, postTextColumnLength < charLen t ∧
      (addPostRequest t [] (some { email := "a@x.com", id := 1 }) 1).1 = .ok 1 := by
  refine ⟨rfl, rfl, by norm_num [postTextColumnLength, MAX_SIZE],
    by norm_num [postTextColumnLength, MAX_SIZE], List.replicate 256 'a', ?_, ?_⟩
  · show 255 < (List.replicate 256 'a').length
    rw [List.length_replicate]
    norm_num
  · have hcl : charLen (List.replicate 256 'a') = 256 := by
      show (List.replicate 256 'a').length = 256
      rw [List.length_replicate]
    have hb : utf8Len (List.replicate 256 'a') = 256 := by
      rw [utf8Len_replicate]
      norm_num [show Char.utf8Size 'a' = 1 from rfl]
    have hval : postCreateSchemaValid (List.replicate 256 'a') = true := by
      unfold postCreateSchemaValid
      rw [hcl]
      rfl
    unfold addPostRequest
    rw [hval, if_pos rfl]
    unfold add_post
    rw [hb]
    rfl

end TestTask
